import Mathlib

/-!
Shallow embedding of `src/pc_listener/pc_listener.py`: an MQTT listener that
maps a 0-100 ambient-light percentage to per-monitor brightness/contrast
device values and applies them over DDC/CI.

Modelling conventions:
* Machine integers are `ℤ`; Python's arbitrary-precision ints need no overflow
  modelling.
* `percent_to_monitor_value` computes `min + (l/100)**power * (max - min)` and
  rounds with Python's `round` (half-to-even).  The embedding carries the exact
  rational `(min*100^power + l^power*(max-min)) / 100^power` as an explicit
  numerator/denominator pair and rounds it half-to-even with integer
  arithmetic; `power` is restricted to natural exponents (the config default is
  `1.0`), for which `np.power` agrees with exact exponentiation at the
  endpoints and the claims under study.
* Fallible calls (`get_monitors()`, YAML loading, writes to one monitor) are
  modelled by `Except` results / failure flags supplied as parameters.
* Side effects (publishes, log lines, DDC/CI writes) are returned as explicit
  event lists; the global mutable state (`monitor_configs`, `last_values`) is
  passed and returned explicitly.
-/

deriving instance DecidableEq for Except

namespace PcListener

/-- `TOPIC_BRIGHTNESS` constant from the source. -/
def TOPIC_BRIGHTNESS : String := "homeassistant/light/brightness_pct"

/-- `TOPIC_REFRESH` constant from the source. -/
def TOPIC_REFRESH : String := "homeassistant/light/refresh"

/-- `ValueRange` dataclass: `min`, `max` (integer device units) and the shaping
exponent `power` (default `1.0`; restricted here to natural exponents). -/
structure ValueRange where
  min : ℤ
  max : ℤ
  power : ℕ := 1
deriving DecidableEq

/-- `MonitorConfig` dataclass: display name plus brightness and contrast
ranges. -/
structure MonitorConfig where
  name : String
  brightness : ValueRange
  contrast : ValueRange
deriving DecidableEq

/-- The global `last_values` debounce dict, keyed by `"brightness"` and
`"contrast"`; `none` models an absent key (`dict.get` returning `None`). -/
structure LastValues where
  brightness : Option ℤ := none
  contrast : Option ℤ := none
deriving DecidableEq

/-- One attached monitor as seen by the apply loop: flags saying whether its
`set_luminance` / `set_contrast` DDC/CI calls raise. -/
structure Monitor where
  luminanceFails : Bool
  contrastFails : Bool
deriving DecidableEq

/-- A monitor whose device writes succeed. -/
def okMon : Monitor := ⟨false, false⟩

/-- A monitor whose device writes all raise. -/
def badMon : Monitor := ⟨true, true⟩

/-- Observable log events emitted by the embedded functions, mirroring the
`log.*` calls in the source. -/
inductive Log where
  | refreshSent
  | reloadFailed
  | invalidPayload (topic : String)
  | ignoredTopic (topic : String)
  | changed (name : String) (light_level brightness contrast : ℤ)
  | setFailed (index : ℕ) (name : String) (brightness contrast : ℤ)
deriving DecidableEq

/-- A successful DDC/CI write to monitor `index`. -/
inductive DeviceWrite where
  | setLuminance (index : ℕ) (value : ℤ)
  | setContrast (index : ℕ) (value : ℤ)
deriving DecidableEq

/-- Exceptions that escape `apply_settings` uncaught: a `get_monitors()`
failure, or the `IndexError` from `configs[-1]` on an empty config list. -/
inductive ApplyError where
  | enumerationFailure
  | indexError
deriving DecidableEq

/-- Round the exact rational `num / den` (for `den > 0`) to the nearest
integer, ties to even: Python's `round`.  `Int.ediv`/`Int.emod` give the floor
and the nonnegative remainder for a positive divisor, and `2*r < den` is the
integer form of `r/den < 1/2`. -/
def rheFrac (num den : ℤ) : ℤ :=
  if 2 * (num % den) < den then num / den
  else if den < 2 * (num % den) then num / den + 1
  else if (num / den) % 2 = 0 then num / den else num / den + 1

/-- `percent_to_monitor_value`: map a 0-100 percentage onto
`[min_val, max_val]`.  The source computes
`normalized = light_level / 100.0`, `curved = normalized ** power`,
`scaled_value = min_val + curved * (max_val - min_val)`, and returns
`int(round(scaled_value))`.  Over exact arithmetic with a natural `power`,
`scaled_value = (min_val*100^power + light_level^power*(max_val-min_val))
/ 100^power`, rounded half-to-even. -/
def percent_to_monitor_value (min_val max_val light_level : ℤ) (power : ℕ) : ℤ :=
  rheFrac (min_val * 100 ^ power + light_level ^ power * (max_val - min_val)) (100 ^ power)

/-- `brightness_dst` from `apply_settings`: the mapper output clamped to
`[cfg.brightness.min, cfg.brightness.max]` via `max(min, min(max, raw))`. -/
def brightness_dst (cfg : MonitorConfig) (light_level : ℤ) : ℤ :=
  max cfg.brightness.min (min cfg.brightness.max
    (percent_to_monitor_value cfg.brightness.min cfg.brightness.max light_level
      cfg.brightness.power))

/-- `contrast_dst` from `apply_settings`: the mapper output clamped to
`[cfg.contrast.min, cfg.contrast.max]`. -/
def contrast_dst (cfg : MonitorConfig) (light_level : ℤ) : ℤ :=
  max cfg.contrast.min (min cfg.contrast.max
    (percent_to_monitor_value cfg.contrast.min cfg.contrast.max light_level
      cfg.contrast.power))

/-- `reload_config(client=None)`: on a successful `load_config()` the global
`monitor_configs` is replaced and, `if client and client.is_connected()`, one
refresh-request is published; on any exception the previous list is kept and
the failure logged.  `loadResult` stands for the outcome of `load_config()`;
`client` is `none` when no client is passed (as in `main()`'s startup call)
and `some b` for a client with `is_connected() = b`.  Returns the new
`monitor_configs`, the published topics and the log events. -/
def reload_config (monitor_configs : List MonitorConfig)
    (loadResult : Except Unit (List MonitorConfig)) (client : Option Bool) :
    List MonitorConfig × List String × List Log :=
  match loadResult with
  | .ok new =>
      if client = some true then (new, [TOPIC_REFRESH], [Log.refreshSent])
      else (new, [], [])
  | .error _ => (monitor_configs, [], [Log.reloadFailed])

/-- `configs[min(i, len(configs) - 1)]` from `apply_settings`.  `none` models
the `IndexError` raised when `configs` is empty (Python then evaluates
`configs[-1]`); note `ℕ` subtraction makes the index `0` there, which is
equally out of bounds for the empty list. -/
def resolve_config (configs : List MonitorConfig) (i : ℕ) : Option MonitorConfig :=
  configs[min i (configs.length - 1)]?

/-- The body of the `for i, monitor in enumerate(monitors)` loop, after
`cfg` has been resolved: compute both clamped targets, then inside `try`
write each control whose target differs from the cached `last_values` entry,
updating the cache after each successful write; an exception from a write is
caught and logged (`log.exception`), and a completed pass that wrote
something logs the change.  Returns the updated cache, the successful device
writes, and the log events. -/
def apply_one (i : ℕ) (mon : Monitor) (cfg : MonitorConfig) (light_level : ℤ)
    (cache : LastValues) : LastValues × List DeviceWrite × List Log :=
  let b := brightness_dst cfg light_level
  let c := contrast_dst cfg light_level
  if cache.brightness ≠ some b then
    if mon.luminanceFails then (cache, [], [Log.setFailed i cfg.name b c])
    else
      let cache1 : LastValues := { cache with brightness := some b }
      if cache1.contrast ≠ some c then
        if mon.contrastFails then
          (cache1, [DeviceWrite.setLuminance i b], [Log.setFailed i cfg.name b c])
        else
          ({ cache1 with contrast := some c },
            [DeviceWrite.setLuminance i b, DeviceWrite.setContrast i c],
            [Log.changed cfg.name light_level b c])
      else (cache1, [DeviceWrite.setLuminance i b], [Log.changed cfg.name light_level b c])
  else
    if cache.contrast ≠ some c then
      if mon.contrastFails then (cache, [], [Log.setFailed i cfg.name b c])
      else
        ({ cache with contrast := some c }, [DeviceWrite.setContrast i c],
          [Log.changed cfg.name light_level b c])
    else (cache, [], [])

/-- The `for i, monitor in enumerate(monitors)` loop of `apply_settings`,
starting at index `i`.  Resolving `cfg` happens before the `try`, so an
`IndexError` there aborts the whole loop. -/
def apply_loop (configs : List MonitorConfig) (light_level : ℤ) :
    List Monitor → ℕ → LastValues →
    Except ApplyError (LastValues × List DeviceWrite × List Log)
  | [], _, cache => .ok (cache, [], [])
  | mon :: rest, i, cache =>
    match resolve_config configs i with
    | none => .error .indexError
    | some cfg =>
      let step := apply_one i mon cfg light_level cache
      match apply_loop configs light_level rest (i + 1) step.1 with
      | .error e => .error e
      | .ok (cache2, w2, lg2) => .ok (cache2, step.2.1 ++ w2, step.2.2 ++ lg2)

/-- `apply_settings(light_level)`: snapshot the configs, call
`get_monitors()` (whose outcome is the `monitors` parameter; a raise there
propagates uncaught), then run the per-monitor loop from index 0. -/
def apply_settings (configs : List MonitorConfig)
    (monitors : Except Unit (List Monitor)) (light_level : ℤ) (cache : LastValues) :
    Except ApplyError (LastValues × List DeviceWrite × List Log) :=
  match monitors with
  | .error _ => .error .enumerationFailure
  | .ok ms => apply_loop configs light_level ms 0 cache

/-- Decimal digits of `int(...)`: all characters must be digits (none means a
`ValueError`). -/
def parseDigits (cs : List Char) : Option ℕ :=
  if cs ≠ [] ∧ cs.all Char.isDigit then
    some (cs.foldl (fun a c => a * 10 + (c.toNat - 48)) 0)
  else none

/-- `int(msg.payload.decode())`: parse an optional sign followed by decimal
digits; `none` models the `ValueError`/`UnicodeDecodeError` raised on any
other payload (whitespace-padded and underscore-grouped int literals, which
Python also accepts, are not needed by any claim and are treated as plain
digit strings here). -/
def parseInt (s : String) : Option ℤ :=
  match s.data with
  | '-' :: rest => (parseDigits rest).map (fun n => -(n : ℤ))
  | '+' :: rest => (parseDigits rest).map (fun n => (n : ℤ))
  | cs => (parseDigits cs).map (fun n => (n : ℤ))

/-- `on_message`: the `try` covers only the payload decode — on failure log a
warning and return; on success, a `TOPIC_BRIGHTNESS` message runs
`apply_settings` (whose uncaught errors escape the handler as the `.error`
case), any other topic is logged and ignored. -/
def on_message (configs : List MonitorConfig) (cache : LastValues)
    (topic payload : String) (monitors : Except Unit (List Monitor)) :
    Except ApplyError (LastValues × List DeviceWrite × List Log) :=
  match parseInt payload with
  | none => .ok (cache, [], [Log.invalidPayload topic])
  | some value =>
    if topic = TOPIC_BRIGHTNESS then apply_settings configs monitors value cache
    else .ok (cache, [], [Log.ignoredTopic topic])

/-- A sample monitor profile used by concrete witnesses: brightness and
contrast both mapped linearly onto `[0, 100]`. -/
def demoCfg : MonitorConfig :=
  { name := "A", brightness := { min := 0, max := 100 }, contrast := { min := 0, max := 100 } }

/-- A second sample profile with a narrower `[0, 50]` range. -/
def demoCfgB : MonitorConfig :=
  { name := "B", brightness := { min := 0, max := 50 }, contrast := { min := 0, max := 50 } }

/-! ## Lemmas about the rounding primitive -/

/-- The rounded value never drops below the floor of the fraction. -/
lemma le_rheFrac (num den : ℤ) : num / den ≤ rheFrac num den := by
  unfold rheFrac; split_ifs <;> omega

/-- The rounded value never exceeds the floor of the fraction plus one. -/
lemma rheFrac_le (num den : ℤ) : rheFrac num den ≤ num / den + 1 := by
  unfold rheFrac; split_ifs <;> omega

/-- Monotonicity of the rounding branches in the remainder, floor fixed. -/
lemma rheBranch_mono (den f r1 r2 : ℤ) (hr : r1 ≤ r2) :
    (if 2 * r1 < den then f else if den < 2 * r1 then f + 1
      else if f % 2 = 0 then f else f + 1) ≤
    (if 2 * r2 < den then f else if den < 2 * r2 then f + 1
      else if f % 2 = 0 then f else f + 1) := by
  split_ifs <;> omega

/-- Round-half-even of `num / den` is monotone in the numerator for a
positive denominator. -/
lemma rheFrac_mono {den : ℤ} (hden : 0 < den) {a b : ℤ} (h : a ≤ b) :
    rheFrac a den ≤ rheFrac b den := by
  have hf : a / den ≤ b / den := Int.ediv_le_ediv hden h
  rcases eq_or_lt_of_le hf with heq | hlt
  · have ha := Int.ediv_add_emod a den
    have hb := Int.ediv_add_emod b den
    have hde : den * (a / den) = den * (b / den) := by rw [heq]
    have hr : a % den ≤ b % den := by linarith
    have key := rheBranch_mono den (b / den) (a % den) (b % den) hr
    unfold rheFrac
    rw [heq]
    exact key
  · have h1 := rheFrac_le a den
    have h2 := le_rheFrac b den
    omega

/-- An exact multiple of the denominator rounds to itself. -/
lemma rheFrac_mul_self (den x : ℤ) (hden : 0 < den) :
    rheFrac (den * x) den = x := by
  unfold rheFrac
  rw [Int.mul_ediv_cancel_left x (ne_of_gt hden), Int.mul_emod_right]
  simp [hden]

/-! ## Claim theorems -/

/-- C1: for every light-level input (including values outside `[0, 100]`) and
every brightness/contrast range with `max ≥ min`, the clamped values
`brightness_dst` and `contrast_dst` that `apply_settings` writes to a device
lie within `[min, max]` inclusive. -/
theorem clamped_write_within_range (cfg : MonitorConfig) (light_level : ℤ)
    (hb : cfg.brightness.min ≤ cfg.brightness.max)
    (hc : cfg.contrast.min ≤ cfg.contrast.max) :
    cfg.brightness.min ≤ brightness_dst cfg light_level ∧
    brightness_dst cfg light_level ≤ cfg.brightness.max ∧
    cfg.contrast.min ≤ contrast_dst cfg light_level ∧
    contrast_dst cfg light_level ≤ cfg.contrast.max := by
  unfold brightness_dst contrast_dst
  omega

/-- Witness for C1 at the narrow profile and the out-of-range input 150. -/
theorem clamped_write_within_range_witness :
    demoCfgB.brightness.min ≤ brightness_dst demoCfgB 150 ∧
    brightness_dst demoCfgB 150 ≤ demoCfgB.brightness.max ∧
    demoCfgB.contrast.min ≤ contrast_dst demoCfgB 150 ∧
    contrast_dst demoCfgB 150 ≤ demoCfgB.contrast.max :=
  clamped_write_within_range demoCfgB 150 (by decide) (by decide)

/-- C7: with `power = 1.0` and `max ≥ min`, the mapped device value is
monotonically non-decreasing in the percent over `[0, 100]`, equals `min` at
percent 0 and equals `max` at percent 100. -/
theorem linear_map_monotone_endpoints (lo hi : ℤ) (h : lo ≤ hi) :
    (∀ l1 l2 : ℤ, 0 ≤ l1 → l1 ≤ l2 → l2 ≤ 100 →
      percent_to_monitor_value lo hi l1 1 ≤ percent_to_monitor_value lo hi l2 1) ∧
    percent_to_monitor_value lo hi 0 1 = lo ∧
    percent_to_monitor_value lo hi 100 1 = hi := by
  refine ⟨?_, ?_, ?_⟩
  · intro l1 l2 _ h12 _
    unfold percent_to_monitor_value
    apply rheFrac_mono (by norm_num)
    have hmul := mul_le_mul_of_nonneg_right h12 (by omega : (0:ℤ) ≤ hi - lo)
    simp only [pow_one]
    linarith
  · unfold percent_to_monitor_value
    have hnum : lo * 100 ^ 1 + 0 ^ 1 * (hi - lo) = 100 * lo := by ring
    rw [hnum]
    simpa using rheFrac_mul_self 100 lo (by norm_num)
  · unfold percent_to_monitor_value
    have hnum : lo * 100 ^ 1 + 100 ^ 1 * (hi - lo) = 100 * hi := by ring
    rw [hnum]
    simpa using rheFrac_mul_self 100 hi (by norm_num)

/-- Witness for C7 on the range `[3, 100]` from the spec's worked example. -/
theorem linear_map_monotone_endpoints_witness :
    percent_to_monitor_value 3 100 20 1 ≤ percent_to_monitor_value 3 100 80 1 ∧
    percent_to_monitor_value 3 100 0 1 = 3 ∧
    percent_to_monitor_value 3 100 100 1 = 100 :=
  ⟨(linear_map_monotone_endpoints 3 100 (by decide)).1 20 80 (by decide) (by decide)
      (by decide),
   (linear_map_monotone_endpoints 3 100 (by decide)).2.1,
   (linear_map_monotone_endpoints 3 100 (by decide)).2.2⟩

/-- C2: if re-parsing the configuration fails during a reload, the snapshot is
left exactly as before, nothing is published, and the failure is logged. -/
theorem reload_failure_keeps_snapshot (configs : List MonitorConfig)
    (client : Option Bool) :
    reload_config configs (Except.error ()) client =
      (configs, [], [Log.reloadFailed]) := rfl

/-- C8 counterexample: the reload performed at process start (`main()` calls
`reload_config()` with no client) publishes zero refresh-request events, not
exactly one, even though the load succeeds. -/
theorem startup_reload_publishes_nothing :
    ¬ (reload_config [] (Except.ok [demoCfg]) none).2.1.length = 1 := by decide

/-- C8 amended: a successful reload publishes exactly one refresh-request
event precisely when a connected client was passed; the startup reload passes
no client and publishes none (a refresh is instead published from
`on_connect`).  In all successful cases the snapshot becomes the new list. -/
theorem reload_publish_characterization (configs new : List MonitorConfig)
    (client : Option Bool) :
    (reload_config configs (Except.ok new) client).2.1 =
      (if client = some true then [TOPIC_REFRESH] else []) ∧
    (reload_config configs (Except.ok new) client).1 = new := by
  unfold reload_config
  split_ifs <;> exact ⟨rfl, rfl⟩

/-- C6: with a non-empty snapshot, monitor `i` resolves to
`snapshot[min(i, n-1)]`: its own entry while `i` is in range, the last entry
once the monitor count exceeds the configured count; in particular with two
configured monitors the third enumerated device uses the second configuration
unchanged. -/
theorem fallback_resolution (configs : List MonitorConfig) (i : ℕ)
    (h : configs ≠ []) :
    (i < configs.length → resolve_config configs i = configs[i]?) ∧
    (configs.length ≤ i →
      resolve_config configs i = configs[configs.length - 1]?) ∧
    (∀ c1 c2 : MonitorConfig, resolve_config [c1, c2] 2 = some c2) := by
  have hlen : 0 < configs.length := List.length_pos.mpr h
  refine ⟨fun hi => ?_, fun hi => ?_, fun c1 c2 => rfl⟩
  · unfold resolve_config
    congr 1
    omega
  · unfold resolve_config
    congr 1
    omega

/-- Witness for C6: two configured profiles, third enumerated device. -/
theorem fallback_resolution_witness :
    ([demoCfg, demoCfgB].length ≤ 2 →
      resolve_config [demoCfg, demoCfgB] 2 =
        [demoCfg, demoCfgB][[demoCfg, demoCfgB].length - 1]?) ∧
    resolve_config [demoCfg, demoCfgB] 2 = some demoCfgB :=
  ⟨(fallback_resolution [demoCfg, demoCfgB] 2 (by decide)).2.1,
   (fallback_resolution [demoCfg, demoCfgB] 2 (by decide)).2.2 demoCfg demoCfgB⟩

/-- C10: if no configuration was ever loaded (the snapshot is the startup
empty list) and at least one monitor is enumerated, `apply_settings` raises an
uncaught `IndexError` while resolving `configs[min(i, len(configs)-1)]`;
and a failed reload keeps the snapshot empty, so the non-empty-snapshot
invariant holds only after the first successful load. -/
theorem empty_config_apply_index_error (light_level : ℤ) (cache : LastValues)
    (mon : Monitor) (ms : List Monitor) :
    apply_settings [] (Except.ok (mon :: ms)) light_level cache =
      Except.error ApplyError.indexError ∧
    ∀ client : Option Bool, (reload_config [] (Except.error ()) client).1 = [] :=
  ⟨rfl, fun _ => rfl⟩

/-! ## Lemmas about the apply loop -/

/-- A non-empty config list resolves every index. -/
lemma resolve_config_isSome (configs : List MonitorConfig) (i : ℕ)
    (h : configs ≠ []) : ∃ cfg, resolve_config configs i = some cfg := by
  have hlen : 0 < configs.length := List.length_pos.mpr h
  have hlt : min i (configs.length - 1) < configs.length := by omega
  exact ⟨configs[min i (configs.length - 1)], List.getElem?_eq_getElem hlt⟩

/-- With a non-empty config list the loop never aborts: it always returns an
`ok` result, whatever monitor failures occur. -/
lemma apply_loop_total (configs : List MonitorConfig) (light_level : ℤ)
    (h : configs ≠ []) :
    ∀ (ms : List Monitor) (i : ℕ) (cache : LastValues),
    ∃ c w lg, apply_loop configs light_level ms i cache = .ok (c, w, lg) := by
  intro ms
  induction ms with
  | nil => exact fun i cache => ⟨cache, [], [], rfl⟩
  | cons mon rest ih =>
    intro i cache
    obtain ⟨cfg, hcfg⟩ := resolve_config_isSome configs i h
    obtain ⟨c, w, lg, hrec⟩ := ih (i + 1) (apply_one i mon cfg light_level cache).1
    exact ⟨c, (apply_one i mon cfg light_level cache).2.1 ++ w,
      (apply_one i mon cfg light_level cache).2.2 ++ lg,
      by simp [apply_loop, hcfg, hrec]⟩

/-- Processing a concatenated monitor list is the sequential composition of
processing the two halves: the loop reaches every later monitor no matter
what happened earlier. -/
lemma apply_loop_append (configs : List MonitorConfig) (light_level : ℤ)
    (h : configs ≠ []) :
    ∀ (ms1 ms2 : List Monitor) (i : ℕ) (cache : LastValues),
    ∃ c1 w1 lg1 c2 w2 lg2,
      apply_loop configs light_level ms1 i cache = .ok (c1, w1, lg1) ∧
      apply_loop configs light_level ms2 (i + ms1.length) c1 = .ok (c2, w2, lg2) ∧
      apply_loop configs light_level (ms1 ++ ms2) i cache =
        .ok (c2, w1 ++ w2, lg1 ++ lg2) := by
  intro ms1
  induction ms1 with
  | nil =>
    intro ms2 i cache
    obtain ⟨c, w, lg, hrec⟩ := apply_loop_total configs light_level h ms2 i cache
    exact ⟨cache, [], [], c, w, lg, rfl, by simpa using hrec, by simpa using hrec⟩
  | cons mon rest ih =>
    intro ms2 i cache
    obtain ⟨cfg, hcfg⟩ := resolve_config_isSome configs i h
    obtain ⟨c1, w1, lg1, c2, w2, lg2, h1, h2, h3⟩ :=
      ih ms2 (i + 1) (apply_one i mon cfg light_level cache).1
    refine ⟨c1, (apply_one i mon cfg light_level cache).2.1 ++ w1,
      (apply_one i mon cfg light_level cache).2.2 ++ lg1, c2, w2, lg2,
      by simp [apply_loop, hcfg, h1], ?_, ?_⟩
    · have hidx : i + (mon :: rest).length = i + 1 + rest.length := by
        simp [List.length_cons]; omega
      rw [hidx]
      exact h2
    · simp [apply_loop, hcfg, h3, List.append_assoc]

/-- C4: a write failure at one monitor is caught and logged inside the loop
and does not abort the remaining monitors.  First conjunct: with a usable
config list, processing any `ms1 ++ ms2` succeeds and the monitors of `ms2`
are processed as a plain continuation of the loop, whatever failures `ms1`
contains.  Second conjunct: a monitor whose writes raise leaves the cache
unchanged, produces no device write, and logs its index, name and the two
attempted values. -/
theorem per_monitor_failure_isolated :
    (∀ (configs : List MonitorConfig) (light_level : ℤ) (cache : LastValues)
        (i : ℕ) (ms1 ms2 : List Monitor), configs ≠ [] →
      ∃ c1 w1 lg1 c2 w2 lg2,
        apply_loop configs light_level ms1 i cache = .ok (c1, w1, lg1) ∧
        apply_loop configs light_level ms2 (i + ms1.length) c1 =
          .ok (c2, w2, lg2) ∧
        apply_loop configs light_level (ms1 ++ ms2) i cache =
          .ok (c2, w1 ++ w2, lg1 ++ lg2)) ∧
    (∀ (i : ℕ) (cfg : MonitorConfig) (light_level : ℤ) (cache : LastValues),
      cache.brightness ≠ some (brightness_dst cfg light_level) →
      apply_one i badMon cfg light_level cache =
        (cache, [], [Log.setFailed i cfg.name (brightness_dst cfg light_level)
          (contrast_dst cfg light_level)])) := by
  constructor
  · intro configs light_level cache i ms1 ms2 h
    exact apply_loop_append configs light_level h ms1 ms2 i cache
  · intro i cfg light_level cache hne
    simp [apply_one, badMon, hne]

/-- Witness for C4: a failing monitor at index 0 followed by a healthy one. -/
theorem per_monitor_failure_isolated_witness :
    (∃ c1 w1 lg1 c2 w2 lg2,
      apply_loop [demoCfg] 50 [badMon] 0 {} = .ok (c1, w1, lg1) ∧
      apply_loop [demoCfg] 50 [okMon] (0 + [badMon].length) c1 =
        .ok (c2, w2, lg2) ∧
      apply_loop [demoCfg] 50 ([badMon] ++ [okMon]) 0 {} =
        .ok (c2, w1 ++ w2, lg1 ++ lg2)) ∧
    apply_one 0 badMon demoCfg 50 {} =
      ({}, [], [Log.setFailed 0 demoCfg.name (brightness_dst demoCfg 50)
        (contrast_dst demoCfg 50)]) :=
  ⟨per_monitor_failure_isolated.1 [demoCfg] 50 {} 0 [badMon] [okMon] (by decide),
   per_monitor_failure_isolated.2 0 demoCfg 50 {} (by decide)⟩

/-- A single-entry config list resolves every index to its only entry. -/
lemma resolve_config_singleton (cfg : MonitorConfig) (i : ℕ) :
    resolve_config [cfg] i = some cfg := by
  unfold resolve_config
  have : min i ([cfg].length - 1) = 0 := by simp
  rw [this]
  rfl

/-- After a monitor whose writes succeed, both cache entries hold exactly the
values just computed for it. -/
lemma apply_one_ok_cache (i : ℕ) (cfg : MonitorConfig) (light_level : ℤ)
    (cache : LastValues) :
    (apply_one i okMon cfg light_level cache).1 =
      ⟨some (brightness_dst cfg light_level),
        some (contrast_dst cfg light_level)⟩ := by
  obtain ⟨cb, cc⟩ := cache
  simp only [apply_one, okMon]
  split_ifs <;> simp_all

/-- A succeeding monitor whose computed values already fill the cache is a
complete no-op: no write, no log, cache unchanged. -/
lemma apply_one_full_cache (i : ℕ) (cfg : MonitorConfig) (light_level : ℤ) :
    apply_one i okMon cfg light_level
      ⟨some (brightness_dst cfg light_level),
        some (contrast_dst cfg light_level)⟩ =
      (⟨some (brightness_dst cfg light_level),
        some (contrast_dst cfg light_level)⟩, [], []) := by
  simp [apply_one]

/-- With one config, healthy monitors, and a cache already holding the
computed values, the whole loop is a no-op. -/
lemma apply_loop_single_full (cfg : MonitorConfig) (light_level : ℤ) :
    ∀ (ms : List Monitor) (i : ℕ), (∀ m ∈ ms, m = okMon) →
    apply_loop [cfg] light_level ms i
      ⟨some (brightness_dst cfg light_level),
        some (contrast_dst cfg light_level)⟩ =
      .ok (⟨some (brightness_dst cfg light_level),
        some (contrast_dst cfg light_level)⟩, [], []) := by
  intro ms
  induction ms with
  | nil => intro i _; rfl
  | cons mon rest ih =>
    intro i hok
    have hmon : mon = okMon := hok mon (by simp)
    have hrest : ∀ m ∈ rest, m = okMon := fun m hm => hok m (by simp [hm])
    subst hmon
    simp [apply_loop, resolve_config_singleton, apply_one_full_cache,
      ih (i + 1) hrest]

/-- C3 counterexample: the debounce cache is a single pair shared by all
monitors, so two monitors on different profiles thrash it.  With profiles
`[0,100]` and `[0,50]` at percent 100, the first call from the empty cache
leaves the cache at the second monitor's values `(50, 50)`; calling again
with the same percent then performs four device writes, not zero. -/
theorem debounce_thrash_counterexample :
    apply_settings [demoCfg, demoCfgB] (Except.ok [okMon, okMon]) 100 {} =
      Except.ok (⟨some 50, some 50⟩,
        [DeviceWrite.setLuminance 0 100, DeviceWrite.setContrast 0 100,
         DeviceWrite.setLuminance 1 50, DeviceWrite.setContrast 1 50],
        [Log.changed "A" 100 100 100, Log.changed "B" 100 50 50]) ∧
    apply_settings [demoCfg, demoCfgB] (Except.ok [okMon, okMon]) 100
        ⟨some 50, some 50⟩ =
      Except.ok (⟨some 50, some 50⟩,
        [DeviceWrite.setLuminance 0 100, DeviceWrite.setContrast 0 100,
         DeviceWrite.setLuminance 1 50, DeviceWrite.setContrast 1 50],
        [Log.changed "A" 100 100 100, Log.changed "B" 100 50 50]) :=
  ⟨by decide, by decide⟩

/-- C3 amended: when every enumerated monitor resolves to the same
configuration (a single-entry snapshot) and its writes succeed, applying the
same percent twice in succession performs zero device writes on the second
call — the debounce suppresses every write whose computed value equals the
cached one.  (With several distinct per-monitor profiles the shared cache
thrashes instead; see the counterexample.) -/
theorem debounce_idempotent_uniform_targets (cfg : MonitorConfig)
    (light_level : ℤ) (ms : List Monitor) (cache c1 : LastValues)
    (w1 : List DeviceWrite) (lg1 : List Log)
    (hok : ∀ m ∈ ms, m = okMon)
    (h1 : apply_settings [cfg] (Except.ok ms) light_level cache =
      .ok (c1, w1, lg1)) :
    apply_settings [cfg] (Except.ok ms) light_level c1 = .ok (c1, [], []) := by
  cases ms with
  | nil =>
    simp only [apply_settings, apply_loop, Except.ok.injEq, Prod.mk.injEq] at h1
    obtain ⟨rfl, -, -⟩ := h1
    rfl
  | cons mon rest =>
    have hmon : mon = okMon := hok mon (by simp)
    have hrest : ∀ m ∈ rest, m = okMon := fun m hm => hok m (by simp [hm])
    subst hmon
    have hfull := apply_loop_single_full cfg light_level rest 1 hrest
    have hfirst : apply_loop [cfg] light_level (okMon :: rest) 0 cache =
        .ok (⟨some (brightness_dst cfg light_level),
              some (contrast_dst cfg light_level)⟩,
          (apply_one 0 okMon cfg light_level cache).2.1,
          (apply_one 0 okMon cfg light_level cache).2.2) := by
      simp [apply_loop, resolve_config_singleton, apply_one_ok_cache, hfull]
    rw [apply_settings, hfirst] at h1
    simp only [Except.ok.injEq, Prod.mk.injEq] at h1
    obtain ⟨rfl, -, -⟩ := h1
    show apply_loop [cfg] light_level (okMon :: rest) 0 _ = _
    simp [apply_loop, resolve_config_singleton, apply_one_full_cache, hfull]

/-- Witness for C3 amended: one monitor on the `[0, 100]` profile at percent
100; the second call from the resulting cache performs zero writes. -/
theorem debounce_idempotent_uniform_targets_witness :
    apply_settings [demoCfg] (Except.ok [okMon]) 100 ⟨some 100, some 100⟩ =
      .ok (⟨some 100, some 100⟩, [], []) :=
  debounce_idempotent_uniform_targets demoCfg 100 [okMon] {} ⟨some 100, some 100⟩
    [DeviceWrite.setLuminance 0 100, DeviceWrite.setContrast 0 100]
    [Log.changed "A" 100 100 100]
    (by simp) (by decide)

/-- C9: a payload that does not decode as a textual integer makes the handler
log a warning and return: the cache is unchanged, no device write occurs, and
no exception escapes (`ok` result), for every topic and every state of the
attached monitors. -/
theorem malformed_payload_discarded (configs : List MonitorConfig)
    (cache : LastValues) (topic payload : String)
    (monitors : Except Unit (List Monitor))
    (h : parseInt payload = none) :
    on_message configs cache topic payload monitors =
      .ok (cache, [], [Log.invalidPayload topic]) := by
  simp [on_message, h]

/-- Witness for C9 at the spec's malformed payload `"abc"`. -/
theorem malformed_payload_discarded_witness :
    on_message [demoCfg] {} TOPIC_BRIGHTNESS "abc" (Except.ok [okMon]) =
      .ok ({}, [], [Log.invalidPayload TOPIC_BRIGHTNESS]) :=
  malformed_payload_discarded [demoCfg] {} TOPIC_BRIGHTNESS "abc"
    (Except.ok [okMon]) (by decide)

/-- C5 counterexample: the `try` in `on_message` covers only the payload
decode, so a `get_monitors()` failure propagates out of the handler — here a
well-formed payload `"50"` with a failing enumeration makes `on_message`
itself end in an error, with no log event and with the failure unhandled,
contradicting the claim that the failure is logged and that no exception
escapes the message handler. -/
theorem enumeration_failure_escapes_counterexample :
    on_message [demoCfg] {} TOPIC_BRIGHTNESS "50" (Except.error ()) =
      Except.error ApplyError.enumerationFailure := by decide

/-- C5 amended: if enumerating the displays fails, the apply cycle for that
message is aborted before any device write, but the exception is not caught
or logged by this code: it escapes `on_message` (the fate of subsequent
messages is then up to the MQTT client library). -/
theorem enumeration_failure_aborts_uncaught (configs : List MonitorConfig)
    (cache : LastValues) (payload : String) (value : ℤ)
    (h : parseInt payload = some value) :
    on_message configs cache TOPIC_BRIGHTNESS payload (Except.error ()) =
      Except.error ApplyError.enumerationFailure := by
  simp [on_message, h, apply_settings]

/-- Witness for C5 amended at payload `"75"`. -/
theorem enumeration_failure_aborts_uncaught_witness :
    on_message [demoCfg] {} TOPIC_BRIGHTNESS "75" (Except.error ()) =
      Except.error ApplyError.enumerationFailure :=
  enumeration_failure_aborts_uncaught [demoCfg] {} "75" 75 (by decide)

end PcListener
